import Mathlib

/-!
Verification of the `pc.Matrix4` module (`src/core/core_matrix4.js`): a 4x4
matrix stored as 16 numbers in column-major order (element `r + c*4` holds
row `r`, column `c`).  Matrix entries are modelled over `ℚ` (exact
arithmetic); the JavaScript `Float32Array` storage cells `data[0] .. data[15]`
become the fields `d0 .. d15`.
-/

/-- The Matrix4 value: the 16 cells of `this.data`, column-major. -/
structure Matrix4 where
  d0 : ℚ
  d1 : ℚ
  d2 : ℚ
  d3 : ℚ
  d4 : ℚ
  d5 : ℚ
  d6 : ℚ
  d7 : ℚ
  d8 : ℚ
  d9 : ℚ
  d10 : ℚ
  d11 : ℚ
  d12 : ℚ
  d13 : ℚ
  d14 : ℚ
  d15 : ℚ
deriving DecidableEq, Repr

/-- Array read `this.data[i]` (reads past the end of the 16 cells give 0;
no operation in the source performs one). -/
def Matrix4.el (m : Matrix4) : Nat → ℚ
  | 0 => m.d0
  | 1 => m.d1
  | 2 => m.d2
  | 3 => m.d3
  | 4 => m.d4
  | 5 => m.d5
  | 6 => m.d6
  | 7 => m.d7
  | 8 => m.d8
  | 9 => m.d9
  | 10 => m.d10
  | 11 => m.d11
  | 12 => m.d12
  | 13 => m.d13
  | 14 => m.d14
  | 15 => m.d15
  | _ => 0

/-- `Matrix4.prototype.setIdentity`: overwrites all 16 cells with the identity
pattern and returns the receiver; as a pure value it ignores the old cells. -/
def Matrix4.setIdentity (_this : Matrix4) : Matrix4 :=
  ⟨1, 0, 0, 0, 0, 1, 0, 0, 0, 0, 1, 0, 0, 0, 0, 1⟩

/-- The fresh `Float32Array(16)` the constructor allocates: all cells 0. -/
def Matrix4.zeroData : Matrix4 :=
  ⟨0, 0, 0, 0, 0, 0, 0, 0, 0, 0, 0, 0, 0, 0, 0, 0⟩

/-- The `Matrix4` constructor: `this.data = new Float32Array(16)`, then if
exactly 16 arguments were passed, `this.data.set(arguments)` copies them in
order; for every other argument count it calls `this.setIdentity()`. -/
def mkMatrix4 (args : List ℚ) : Matrix4 :=
  if args.length = 16 then
    ⟨args.getD 0 0, args.getD 1 0, args.getD 2 0, args.getD 3 0,
     args.getD 4 0, args.getD 5 0, args.getD 6 0, args.getD 7 0,
     args.getD 8 0, args.getD 9 0, args.getD 10 0, args.getD 11 0,
     args.getD 12 0, args.getD 13 0, args.getD 14 0, args.getD 15 0⟩
  else
    Matrix4.zeroData.setIdentity

/-- The `Matrix4.identity` property: the closure returns the shared instance
built once by `new pc.Matrix4()` (no arguments, hence the identity pattern). -/
def Matrix4.identity : Matrix4 :=
  mkMatrix4 []

/-- The `Matrix4.zero` property: the shared instance built once by
`new pc.Matrix4(0, ..., 0)` (16 zero arguments). -/
def Matrix4.zero : Matrix4 :=
  mkMatrix4 [0, 0, 0, 0, 0, 0, 0, 0, 0, 0, 0, 0, 0, 0, 0, 0]

/-- `Matrix4.prototype.copy`: copies the 16 cells of `rhs` into the receiver
and returns the receiver. -/
def Matrix4.copy (_this rhs : Matrix4) : Matrix4 :=
  ⟨rhs.d0, rhs.d1, rhs.d2, rhs.d3, rhs.d4, rhs.d5, rhs.d6, rhs.d7,
   rhs.d8, rhs.d9, rhs.d10, rhs.d11, rhs.d12, rhs.d13, rhs.d14, rhs.d15⟩

/-- `Matrix4.prototype.clone`: `new pc.Matrix4().copy(this)`. -/
def Matrix4.clone (m : Matrix4) : Matrix4 :=
  (mkMatrix4 []).copy m

/-- `Matrix4.mul(lhs, rhs, res)` with `res` supplied: reads all 16 cells of
`lhs` into locals `a00..a33`, then for each column of `rhs` in turn reads its
four cells into `b0..b3` and writes the four cells of the corresponding
column of `res`.  Pure model: the value written into `res`. -/
def Matrix4.mul (lhs rhs : Matrix4) : Matrix4 :=
  let a00 := lhs.d0
  let a01 := lhs.d1
  let a02 := lhs.d2
  let a03 := lhs.d3
  let a10 := lhs.d4
  let a11 := lhs.d5
  let a12 := lhs.d6
  let a13 := lhs.d7
  let a20 := lhs.d8
  let a21 := lhs.d9
  let a22 := lhs.d10
  let a23 := lhs.d11
  let a30 := lhs.d12
  let a31 := lhs.d13
  let a32 := lhs.d14
  let a33 := lhs.d15
  let b0 := rhs.d0
  let b1 := rhs.d1
  let b2 := rhs.d2
  let b3 := rhs.d3
  let r0 := a00 * b0 + a10 * b1 + a20 * b2 + a30 * b3
  let r1 := a01 * b0 + a11 * b1 + a21 * b2 + a31 * b3
  let r2 := a02 * b0 + a12 * b1 + a22 * b2 + a32 * b3
  let r3 := a03 * b0 + a13 * b1 + a23 * b2 + a33 * b3
  let b0 := rhs.d4
  let b1 := rhs.d5
  let b2 := rhs.d6
  let b3 := rhs.d7
  let r4 := a00 * b0 + a10 * b1 + a20 * b2 + a30 * b3
  let r5 := a01 * b0 + a11 * b1 + a21 * b2 + a31 * b3
  let r6 := a02 * b0 + a12 * b1 + a22 * b2 + a32 * b3
  let r7 := a03 * b0 + a13 * b1 + a23 * b2 + a33 * b3
  let b0 := rhs.d8
  let b1 := rhs.d9
  let b2 := rhs.d10
  let b3 := rhs.d11
  let r8 := a00 * b0 + a10 * b1 + a20 * b2 + a30 * b3
  let r9 := a01 * b0 + a11 * b1 + a21 * b2 + a31 * b3
  let r10 := a02 * b0 + a12 * b1 + a22 * b2 + a32 * b3
  let r11 := a03 * b0 + a13 * b1 + a23 * b2 + a33 * b3
  let b0 := rhs.d12
  let b1 := rhs.d13
  let b2 := rhs.d14
  let b3 := rhs.d15
  let r12 := a00 * b0 + a10 * b1 + a20 * b2 + a30 * b3
  let r13 := a01 * b0 + a11 * b1 + a21 * b2 + a31 * b3
  let r14 := a02 * b0 + a12 * b1 + a22 * b2 + a32 * b3
  let r15 := a03 * b0 + a13 * b1 + a23 * b2 + a33 * b3
  ⟨r0, r1, r2, r3, r4, r5, r6, r7, r8, r9, r10, r11, r12, r13, r14, r15⟩

/-- `Matrix4.prototype.invert`: in-place cofactor/adjugate inverse through the
twelve 2x2 minors `b00..b11` and `invDet = 1/det`; reads all 16 cells first,
then overwrites them.  Pure model: the value the 16 cells hold afterwards.
Over `ℚ`, `1/0 = 0`, so a zero determinant yields the zero matrix rather
than the `Inf`/`NaN` fill of the JavaScript original. -/
def Matrix4.invert (m : Matrix4) : Matrix4 :=
  let a00 := m.d0
  let a01 := m.d1
  let a02 := m.d2
  let a03 := m.d3
  let a10 := m.d4
  let a11 := m.d5
  let a12 := m.d6
  let a13 := m.d7
  let a20 := m.d8
  let a21 := m.d9
  let a22 := m.d10
  let a23 := m.d11
  let a30 := m.d12
  let a31 := m.d13
  let a32 := m.d14
  let a33 := m.d15
  let b00 := a00 * a11 - a01 * a10
  let b01 := a00 * a12 - a02 * a10
  let b02 := a00 * a13 - a03 * a10
  let b03 := a01 * a12 - a02 * a11
  let b04 := a01 * a13 - a03 * a11
  let b05 := a02 * a13 - a03 * a12
  let b06 := a20 * a31 - a21 * a30
  let b07 := a20 * a32 - a22 * a30
  let b08 := a20 * a33 - a23 * a30
  let b09 := a21 * a32 - a22 * a31
  let b10 := a21 * a33 - a23 * a31
  let b11 := a22 * a33 - a23 * a32
  let invDet := 1 / (b00 * b11 - b01 * b10 + b02 * b09 + b03 * b08 -
    b04 * b07 + b05 * b06)
  ⟨(a11 * b11 - a12 * b10 + a13 * b09) * invDet,
   (-a01 * b11 + a02 * b10 - a03 * b09) * invDet,
   (a31 * b05 - a32 * b04 + a33 * b03) * invDet,
   (-a21 * b05 + a22 * b04 - a23 * b03) * invDet,
   (-a10 * b11 + a12 * b08 - a13 * b07) * invDet,
   (a00 * b11 - a02 * b08 + a03 * b07) * invDet,
   (-a30 * b05 + a32 * b02 - a33 * b01) * invDet,
   (a20 * b05 - a22 * b02 + a23 * b01) * invDet,
   (a10 * b10 - a11 * b08 + a13 * b06) * invDet,
   (-a00 * b10 + a01 * b08 - a03 * b06) * invDet,
   (a30 * b04 - a31 * b02 + a33 * b00) * invDet,
   (-a20 * b04 + a21 * b02 - a23 * b00) * invDet,
   (-a10 * b09 + a11 * b07 - a12 * b06) * invDet,
   (a00 * b09 - a01 * b07 + a02 * b06) * invDet,
   (-a30 * b03 + a31 * b01 - a32 * b00) * invDet,
   (a20 * b03 - a21 * b01 + a22 * b00) * invDet⟩

/-- The determinant `invert` divides by: the combination of the twelve 2x2
minors appearing in `invDet = 1.0/(b00*b11 - b01*b10 + b02*b09 + b03*b08 -
b04*b07 + b05*b06)`. -/
def Matrix4.det (m : Matrix4) : ℚ :=
  let a00 := m.d0
  let a01 := m.d1
  let a02 := m.d2
  let a03 := m.d3
  let a10 := m.d4
  let a11 := m.d5
  let a12 := m.d6
  let a13 := m.d7
  let a20 := m.d8
  let a21 := m.d9
  let a22 := m.d10
  let a23 := m.d11
  let a30 := m.d12
  let a31 := m.d13
  let a32 := m.d14
  let a33 := m.d15
  let b00 := a00 * a11 - a01 * a10
  let b01 := a00 * a12 - a02 * a10
  let b02 := a00 * a13 - a03 * a10
  let b03 := a01 * a12 - a02 * a11
  let b04 := a01 * a13 - a03 * a11
  let b05 := a02 * a13 - a03 * a12
  let b06 := a20 * a31 - a21 * a30
  let b07 := a20 * a32 - a22 * a30
  let b08 := a20 * a33 - a23 * a30
  let b09 := a21 * a32 - a22 * a31
  let b10 := a21 * a33 - a23 * a31
  let b11 := a22 * a33 - a23 * a32
  b00 * b11 - b01 * b10 + b02 * b09 + b03 * b08 - b04 * b07 + b05 * b06

/-- JavaScript runtime errors the module can raise; the string names the
undeclared identifier whose read threw. -/
inductive JsErr where
  | referenceError : String → JsErr
deriving DecidableEq, Repr

/-- Outcome of a call that can throw: a thrown error or a normal value. -/
inductive JsRes (α : Type) where
  | thrown : JsErr → JsRes α
  | normal : α → JsRes α
deriving DecidableEq, Repr

/-- `Matrix4.prototype.equals`: the body is `return` alone on its line,
followed by the parenthesized 16-way comparison on the next lines;
JavaScript automatic semicolon insertion closes the `return` statement, so
every call returns `undefined` and the comparison is dead code.  Model:
`none` stands for `undefined`, `some b` for a boolean result. -/
def Matrix4.equals (_this _rhs : Matrix4) : Option Bool :=
  none

/-- The dead comparison expression in the body of `equals` (never evaluated
by the source): the conjunction of the 16 cellwise `===` comparisons. -/
def Matrix4.equalsDeadExpr (l r : Matrix4) : Bool :=
  (decide (l.d0 = r.d0)) && (decide (l.d1 = r.d1)) &&
  (decide (l.d2 = r.d2)) && (decide (l.d3 = r.d3)) &&
  (decide (l.d4 = r.d4)) && (decide (l.d5 = r.d5)) &&
  (decide (l.d6 = r.d6)) && (decide (l.d7 = r.d7)) &&
  (decide (l.d8 = r.d8)) && (decide (l.d9 = r.d9)) &&
  (decide (l.d10 = r.d10)) && (decide (l.d11 = r.d11)) &&
  (decide (l.d12 = r.d12)) && (decide (l.d13 = r.d13)) &&
  (decide (l.d14 = r.d14)) && (decide (l.d15 = r.d15))

/-- `Matrix4.prototype.transpose`: the body swaps `m[1]/m[4]`, `m[2]/m[8]`,
`m[3]/m[12]`, `m[6]/m[9]`, `m[7]/m[13]`, `m[11]/m[14]`, but no `m` is ever
declared in it (the `var m = this.data` line every sibling method has is
missing), so the first read of `m` throws a ReferenceError before any cell
is written. -/
def Matrix4.transpose (_this : Matrix4) : JsRes Matrix4 :=
  JsRes.thrown (JsErr.referenceError "m")

/-- The 3-component vector collaborator (external `pc.Vector3`): fields
`x, y, z`. -/
structure Vec3 where
  x : ℚ
  y : ℚ
  z : ℚ
deriving DecidableEq, Repr

/-- Indexed read of a `Vec3` component. -/
def Vec3.el (v : Vec3) : Nat → ℚ
  | 0 => v.x
  | 1 => v.y
  | 2 => v.z
  | _ => 0

/-- Componentwise difference `this.subtract(a, b)` of the vector
collaborator. -/
def Vec3.sub (a b : Vec3) : Vec3 :=
  ⟨a.x - b.x, a.y - b.y, a.z - b.z⟩

/-- Standard cross product of the vector collaborator. -/
def Vec3.cross (a b : Vec3) : Vec3 :=
  ⟨a.y * b.z - a.z * b.y, a.z * b.x - a.x * b.z, a.x * b.y - a.y * b.x⟩

/-- Dot product, used for squared length. -/
def Vec3.dot (a b : Vec3) : ℚ :=
  a.x * b.x + a.y * b.y + a.z * b.z

/-- Vector normalization `v.normalize()` of the external collaborator:
`v / length(v)` with `length(v) = sqrt(v · v)`.  Square roots do not exist
inside `ℚ`, so the development is parameterized by the square-root function
`sq`; every concrete statement below applies `sq` only at 1, where the true
square root (namely 1) is rational and any faithful `sq` agrees with `id`. -/
def Vec3.normalizeWith (sq : ℚ → ℚ) (v : Vec3) : Vec3 :=
  let len := sq (Vec3.dot v v)
  ⟨v.x / len, v.y / len, v.z / len⟩

/-- `Matrix4.mulVec3(mtx, vec, w, res)` with `res` supplied: computes
`x = v[0]*m[0] + v[1]*m[4] + v[2]*m[8] + w*m[12]` and likewise `y`, `z` from
cells 1, 5, 9, 13 and 2, 6, 10, 14, and writes them into `res`.  Pure model:
the 3-vector written into `res`. -/
def Matrix4.mulVec3 (mtx : Matrix4) (vec : Vec3) (w : ℚ) : Vec3 :=
  let x := vec.x * mtx.d0 + vec.y * mtx.d4 + vec.z * mtx.d8 + w * mtx.d12
  let y := vec.x * mtx.d1 + vec.y * mtx.d5 + vec.z * mtx.d9 + w * mtx.d13
  let z := vec.x * mtx.d2 + vec.y * mtx.d6 + vec.z * mtx.d10 + w * mtx.d14
  ⟨x, y, z⟩

/-- Modelled from the words of claim C6 (the row-vector reading), for
comparison against the source's `mulVec3`: `out[c] = vec[0]*mtx[c*4] +
vec[1]*mtx[1 + c*4] + vec[2]*mtx[2 + c*4] + w*mtx[12 + c]` for `c` in
`0..2`. -/
def mulVec3RowFormula (mtx : Matrix4) (vec : Vec3) (w : ℚ) : Vec3 :=
  ⟨vec.x * mtx.el 0 + vec.y * mtx.el 1 + vec.z * mtx.el 2 + w * mtx.el 12,
   vec.x * mtx.el 4 + vec.y * mtx.el 5 + vec.z * mtx.el 6 + w * mtx.el 13,
   vec.x * mtx.el 8 + vec.y * mtx.el 9 + vec.z * mtx.el 10 + w * mtx.el 14⟩

/-- Determinant of the upper-left 3x3 block exactly as `invertTo3x3`
computes it: `det = m[0]*a11 + m[1]*a12 + m[2]*a13` with the three
cofactors `a11, a12, a13`. -/
def Matrix4.det3 (m : Matrix4) : ℚ :=
  let a11 := m.d10 * m.d5 - m.d6 * m.d9
  let a12 := -m.d10 * m.d4 + m.d6 * m.d8
  let a13 := m.d9 * m.d4 - m.d5 * m.d8
  m.d0 * a11 + m.d1 * a12 + m.d2 * a13

/-- Record of one `invertTo3x3` call: whether the singular-matrix warning
was logged, and the outcome of the call. -/
structure InvertTo3x3Call where
  warned : Bool
  outcome : JsRes Matrix4
deriving DecidableEq, Repr

/-- `Matrix4.prototype.invertTo3x3`: computes the nine 3x3 cofactors and the
determinant; on `det == 0` it logs "Matrix not invertible" and executes
`return r`, and otherwise its first write is `r[0] = idet * a11` — but no
`r` is in scope in either branch (the result parameter was dropped from the
signature while the body kept using it), so both branches throw a
ReferenceError.  The receiver's 16 cells are never written. -/
def Matrix4.invertTo3x3 (m : Matrix4) : InvertTo3x3Call :=
  if Matrix4.det3 m = 0 then
    ⟨true, JsRes.thrown (JsErr.referenceError "r")⟩
  else
    ⟨false, JsRes.thrown (JsErr.referenceError "r")⟩

/-- `Matrix4.prototype.lookAt(position, target, up)`: with the closure's
scratch vectors, `z = (position - target).normalize()`,
`y = up.normalize()`, `x = cross(y, z).normalize()`, `y = cross(z, x)`;
then writes `x` into cells 0..2, `y` into cells 4..6, `z` into cells 8..10,
zeros into cells 3, 7, 11, `position` into cells 12..14 and 1 into cell 15,
overwriting the receiver. -/
def Matrix4.lookAt (sq : ℚ → ℚ) (position target up : Vec3) : Matrix4 :=
  let z := Vec3.normalizeWith sq (Vec3.sub position target)
  let y := Vec3.normalizeWith sq up
  let x := Vec3.normalizeWith sq (Vec3.cross y z)
  let y := Vec3.cross z x
  ⟨x.x, x.y, x.z, 0, y.x, y.y, y.z, 0, z.x, z.y, z.z, 0,
   position.x, position.y, position.z, 1⟩

/-- Modelled from the words of claim C8, for comparison against the source's
`lookAt`: `z = normalize(position - target)`, `x = normalize(cross(up, z))`,
`y = cross(z, x)`, with `x` written into cells 0, 4, 8, `y` into cells
1, 5, 9, `z` into cells 2, 6, 10 (the rows of the rotation block) and
`position` into cells 12..14. -/
def lookAtRowsFormula (sq : ℚ → ℚ) (position target up : Vec3) : Matrix4 :=
  let z := Vec3.normalizeWith sq (Vec3.sub position target)
  let x := Vec3.normalizeWith sq (Vec3.cross up z)
  let y := Vec3.cross z x
  ⟨x.x, y.x, z.x, 0, x.y, y.y, z.y, 0, x.z, y.z, z.z, 0,
   position.x, position.y, position.z, 1⟩

/-- `Matrix4.prototype.setFromEulerXYZ(ex, ey, ez)`: the body computes
`Math.sin(-x)`, `Math.cos(-x)`, ... but the parameters are named
`ex, ey, ez` and no `x`, `y`, `z` is in scope, so the very first statement
throws a ReferenceError; the receiver is never written and no matrix is
returned. -/
def Matrix4.setFromEulerXYZ (_this : Matrix4) (_ex _ey _ez : ℚ) :
    JsRes Matrix4 :=
  JsRes.thrown (JsErr.referenceError "x")

/-- `Matrix4.prototype.toEulerXYZ()`: after `this.getScale()` the body reads
`m[2]` and later `r[0]`, but neither `m` nor `r` is declared anywhere in the
function, so it throws a ReferenceError; no Euler angles are produced. -/
def Matrix4.toEulerXYZ (_this : Matrix4) : JsRes Vec3 :=
  JsRes.thrown (JsErr.referenceError "m")

/-- C1: `Matrix4.mul` computes the standard column-major 4x4 product: for
every row `r` and destination column `j`, cell `r + j*4` of the result is the
dot product of row `r` of `lhs` with column `j` of `rhs`. -/
theorem mul_is_colmajor_matrix_product (lhs rhs : Matrix4) (r j : Fin 4) :
    (Matrix4.mul lhs rhs).el (r.val + j.val * 4) =
      ∑ k : Fin 4, lhs.el (r.val + k.val * 4) * rhs.el (k.val + j.val * 4) := by
  fin_cases r <;> fin_cases j <;>
    simp [Matrix4.mul, Matrix4.el, Fin.sum_univ_four]

/-- Helper: `clone` copies all 16 cells, so as a value it returns its source. -/
theorem clone_eq_self (m : Matrix4) : m.clone = m := by
  cases m
  rfl

/-- Helper: the `identity` constant is the identity pattern, cell by cell. -/
theorem identity_eq_mk :
    Matrix4.identity = ⟨1, 0, 0, 0, 0, 1, 0, 0, 0, 0, 1, 0, 0, 0, 0, 1⟩ :=
  rfl

/-- Helper: a four-term combination of numerators over a common non-zero
denominator equals `t` once the numerator combination equals `t` times the
denominator. -/
theorem div_combo_eq (a b c d na nb nc nd D t : ℚ) (hD : D ≠ 0)
    (hsum : a * na + b * nb + c * nc + d * nd = t * D) :
    a * (na * (1 / D)) + b * (nb * (1 / D)) + c * (nc * (1 / D)) +
      d * (nd * (1 / D)) = t := by
  field_simp
  linear_combination hsum

set_option maxHeartbeats 2000000 in
/-- C2: for every matrix `M` with non-zero determinant, multiplying `M` by
`invert` of a `clone` of `M` yields the identity matrix; over the exact
rational model the equality is exact. -/
theorem mul_invert_clone_eq_identity (M : Matrix4) (h : Matrix4.det M ≠ 0) :
    Matrix4.mul M (Matrix4.invert M.clone) = Matrix4.identity := by
  rw [clone_eq_self, identity_eq_mk]
  obtain ⟨m0, m1, m2, m3, m4, m5, m6, m7, m8, m9, m10, m11, m12, m13, m14, m15⟩ := M
  simp only [Matrix4.det] at h
  simp only [Matrix4.mul, Matrix4.invert, Matrix4.mk.injEq]
  refine ⟨?_, ?_, ?_, ?_, ?_, ?_, ?_, ?_, ?_, ?_, ?_, ?_, ?_, ?_, ?_, ?_⟩ <;>
    exact div_combo_eq _ _ _ _ _ _ _ _ _ _ h (by ring)

/-- Witness for C2 at a concrete invertible matrix (a translation by
`(10, 20, 30)`, determinant 1). -/
theorem mul_invert_clone_eq_identity_witness :
    Matrix4.det ⟨1, 0, 0, 0, 0, 1, 0, 0, 0, 0, 1, 0, 10, 20, 30, 1⟩ ≠ 0 ∧
    Matrix4.mul ⟨1, 0, 0, 0, 0, 1, 0, 0, 0, 0, 1, 0, 10, 20, 30, 1⟩
      (Matrix4.invert (Matrix4.clone
        ⟨1, 0, 0, 0, 0, 1, 0, 0, 0, 0, 1, 0, 10, 20, 30, 1⟩)) =
      Matrix4.identity :=
  ⟨by norm_num [Matrix4.det],
   mul_invert_clone_eq_identity _ (by norm_num [Matrix4.det])⟩

/-- C3: the `Matrix4.identity` constant is a left and a right identity for
`Matrix4.mul`, with exact equality of all 16 cells. -/
theorem mul_identity_left_and_right (M : Matrix4) :
    Matrix4.mul Matrix4.identity M = M ∧ Matrix4.mul M Matrix4.identity = M := by
  obtain ⟨m0, m1, m2, m3, m4, m5, m6, m7, m8, m9, m10, m11, m12, m13, m14, m15⟩ := M
  constructor <;>
    · simp [Matrix4.mul, Matrix4.identity, mkMatrix4, Matrix4.zeroData,
        Matrix4.setIdentity]

/-- C4: `equals` never returns a boolean: automatic semicolon insertion after
the bare `return` makes every call return `undefined` (`none`), even though
the dead comparison expression below it would have computed exact cellwise
equality. -/
theorem equals_always_returns_undefined (a b : Matrix4) :
    Matrix4.equals a b = none ∧
      (Matrix4.equalsDeadExpr a b = true ↔ a = b) := by
  refine ⟨rfl, ?_⟩
  obtain ⟨a0, a1, a2, a3, a4, a5, a6, a7, a8, a9, a10, a11, a12, a13, a14, a15⟩ := a
  obtain ⟨b0, b1, b2, b3, b4, b5, b6, b7, b8, b9, b10, b11, b12, b13, b14, b15⟩ := b
  simp only [Matrix4.equalsDeadExpr, Bool.and_eq_true, decide_eq_true_eq,
    Matrix4.mk.injEq]
  tauto

/-- C5: `transpose` never swaps anything: the body reads the undeclared
identifier `m`, so every call throws a ReferenceError and no matrix is ever
returned (in particular the in-place swap and the involution property never
happen). -/
theorem transpose_always_throws (mat : Matrix4) :
    Matrix4.transpose mat = JsRes.thrown (JsErr.referenceError "m") ∧
      ∀ out : Matrix4, Matrix4.transpose mat ≠ JsRes.normal out := by
  exact ⟨rfl, fun out h => by simp [Matrix4.transpose] at h⟩

/-- C6 counterexample: at the matrix with cell 4 set to 1 (row 0, column 1)
and the vector (0, 1, 0) with w = 0, the source's `mulVec3` returns
(1, 0, 0) while the claimed row-vector formula returns (0, 1, 0). -/
theorem mulVec3_row_formula_cex :
    Matrix4.mulVec3 ⟨0, 0, 0, 0, 1, 0, 0, 0, 0, 0, 0, 0, 0, 0, 0, 0⟩
        ⟨0, 1, 0⟩ 0 ≠
      mulVec3RowFormula ⟨0, 0, 0, 0, 1, 0, 0, 0, 0, 0, 0, 0, 0, 0, 0, 0⟩
        ⟨0, 1, 0⟩ 0 := by
  norm_num [Matrix4.mulVec3, mulVec3RowFormula, Matrix4.el, Vec3.mk.injEq]

/-- C6 amended: `mulVec3` treats the vector as a column: component `r` of
the output is `vec[0]*mtx[r] + vec[1]*mtx[4 + r] + vec[2]*mtx[8 + r] +
w*mtx[12 + r]`, i.e. `out = upper3x3(mtx) · vec + w · translation(mtx)`,
with the homogeneous 4th coordinate dropped. -/
theorem mulVec3_is_column_transform (mtx : Matrix4) (vec : Vec3) (w : ℚ)
    (r : Fin 3) :
    (Matrix4.mulVec3 mtx vec w).el r.val =
      vec.x * mtx.el r.val + vec.y * mtx.el (4 + r.val) +
        vec.z * mtx.el (8 + r.val) + w * mtx.el (12 + r.val) := by
  fin_cases r <;> simp [Matrix4.mulVec3, Matrix4.el, Vec3.el]

/-- C7: on a matrix whose upper-left 3x3 block has determinant exactly zero,
`invertTo3x3` logs the singular-matrix warning and leaves the 16 cells
untouched, but it then throws a ReferenceError (`return r` with `r`
undeclared) instead of returning normally. -/
theorem invertTo3x3_singular_warns_then_throws (m : Matrix4)
    (h : Matrix4.det3 m = 0) :
    Matrix4.invertTo3x3 m =
      ⟨true, JsRes.thrown (JsErr.referenceError "r")⟩ := by
  simp [Matrix4.invertTo3x3, h]

/-- Witness for C7 at the all-zero matrix, whose 3x3 block is singular. -/
theorem invertTo3x3_singular_witness :
    Matrix4.det3 Matrix4.zero = 0 ∧
    Matrix4.invertTo3x3 Matrix4.zero =
      ⟨true, JsRes.thrown (JsErr.referenceError "r")⟩ :=
  ⟨by norm_num [Matrix4.det3, Matrix4.zero, mkMatrix4],
   invertTo3x3_singular_warns_then_throws _
     (by norm_num [Matrix4.det3, Matrix4.zero, mkMatrix4])⟩

/-- C8 counterexample: at position (1, 0, 0), target (0, 0, 0), up (0, 1, 0)
(all lengths involved are 1, so the rational square root `id` is exact),
cell 8 of the matrix `lookAt` builds is `z[0] = 1`, while the claimed
row-layout formula puts `x[2] = -1` there. -/
theorem lookAt_rows_cex :
    (Matrix4.lookAt id ⟨1, 0, 0⟩ ⟨0, 0, 0⟩ ⟨0, 1, 0⟩).el 8 ≠
      (lookAtRowsFormula id ⟨1, 0, 0⟩ ⟨0, 0, 0⟩ ⟨0, 1, 0⟩).el 8 := by
  norm_num [Matrix4.lookAt, lookAtRowsFormula, Vec3.normalizeWith, Vec3.sub,
    Vec3.cross, Vec3.dot, Matrix4.el, id_eq]

/-- C8 amended: `lookAt` computes `z = normalize(position - target)`,
`x = normalize(cross(normalize(up), z))` (same direction as
`normalize(cross(up, z))` under a true square root), `y = cross(z, x)`, and
writes `x`, `y`, `z` as the COLUMNS of the rotation block — `x` into cells
0, 1, 2, `y` into cells 4, 5, 6, `z` into cells 8, 9, 10 — and `position`
into cells 12, 13, 14. -/
theorem lookAt_writes_basis_as_columns (sq : ℚ → ℚ)
    (position target up : Vec3) (i : Fin 3) :
    (Matrix4.lookAt sq position target up).el i.val =
      (Vec3.normalizeWith sq (Vec3.cross (Vec3.normalizeWith sq up)
        (Vec3.normalizeWith sq (Vec3.sub position target)))).el i.val ∧
    (Matrix4.lookAt sq position target up).el (4 + i.val) =
      (Vec3.cross (Vec3.normalizeWith sq (Vec3.sub position target))
        (Vec3.normalizeWith sq (Vec3.cross (Vec3.normalizeWith sq up)
          (Vec3.normalizeWith sq (Vec3.sub position target))))).el i.val ∧
    (Matrix4.lookAt sq position target up).el (8 + i.val) =
      (Vec3.normalizeWith sq (Vec3.sub position target)).el i.val ∧
    (Matrix4.lookAt sq position target up).el (12 + i.val) =
      position.el i.val := by
  fin_cases i <;>
    simp [Matrix4.lookAt, Matrix4.el, Vec3.el, Vec3.normalizeWith]

/-- C9: the Euler round-trip never happens: `setFromEulerXYZ` reads the
undeclared identifiers `x`, `y`, `z` (its parameters are `ex`, `ey`, `ez`)
and `toEulerXYZ` reads the undeclared `m` and `r`, so both throw a
ReferenceError on every call and neither a rotation matrix nor an Euler
vector is ever produced. -/
theorem euler_roundtrip_never_happens (m : Matrix4) (ex ey ez : ℚ) :
    Matrix4.setFromEulerXYZ m ex ey ez =
      JsRes.thrown (JsErr.referenceError "x") ∧
    (∀ out : Matrix4, Matrix4.setFromEulerXYZ m ex ey ez ≠ JsRes.normal out) ∧
    Matrix4.toEulerXYZ m = JsRes.thrown (JsErr.referenceError "m") := by
  refine ⟨rfl, fun out h => ?_, rfl⟩
  simp [Matrix4.setFromEulerXYZ] at h

/-- C10: the constructor yields the identity matrix for every argument count
other than exactly 16, and with exactly 16 arguments it copies them into the
16 cells in order. -/
theorem ctor_identity_unless_16_args (args : List ℚ) :
    (args.length ≠ 16 → mkMatrix4 args = Matrix4.identity) ∧
    (args.length = 16 →
      ∀ i : Fin 16, (mkMatrix4 args).el i.val = args.getD i.val 0) := by
  constructor
  · intro h
    simp [mkMatrix4, h, Matrix4.identity]
  · intro h i
    fin_cases i <;> simp [mkMatrix4, h, Matrix4.el]

/-- Witness for C10: three arguments give the identity matrix, and with
16 arguments cell 9 holds the 10th argument. -/
theorem ctor_identity_unless_16_args_witness :
    mkMatrix4 [5, 6, 7] = Matrix4.identity ∧
    (mkMatrix4 [0, 1, 2, 3, 4, 5, 6, 7, 8, 9, 10, 11, 12, 13, 14, 15]).el 9 =
      [(0 : ℚ), 1, 2, 3, 4, 5, 6, 7, 8, 9, 10, 11, 12, 13, 14, 15].getD 9 0 :=
  ⟨(ctor_identity_unless_16_args [5, 6, 7]).1 (by decide),
   (ctor_identity_unless_16_args
     [0, 1, 2, 3, 4, 5, 6, 7, 8, 9, 10, 11, 12, 13, 14, 15]).2
     (by norm_num) ⟨9, by norm_num⟩⟩
